import Mathlib

/-!
Shallow embedding of the dual-pane terminal TUI core of the `planq`
repository (package `internal/tui`): the `Pane` lifecycle from
`pane.go` and the bubbletea session controller / compositor from the
`model` file (`doTick`, `Update`, `handleResize`, `handleKey`,
`sendKey`, `cleanup`, `View`, `dualPaneLayer.Draw`, `setCell`,
`paneSize`).

External fallible calls (pty allocation, process start, pty resize,
pty close) are modelled by an environment record carrying each call's
result, and every operation additionally returns the list of external
side effects it performed, in order, so that claims about "exactly
once" signalling/release and resource leaks can be stated.
-/

namespace Planq

/-- Go error values: a base error message or a wrapped error
(`fmt.Errorf("ctx: %w", err)`). -/
inductive GoErr where
  | base (msg : String)
  | wrap (ctx : String) (e : GoErr)
deriving DecidableEq, Repr

/-- A key event: rune/key code plus modifier bitmask. Both
`tea.KeyPressMsg` (= `tea.Key`) and `vt.KeyPressEvent` carry these two
fields, and the source converts between them field-for-field, so one
type models both. -/
structure KeyEvent where
  code : Int
  mod : Nat
deriving DecidableEq, Repr

/-- Rune code of lowercase a. -/
def keyA : Int := 97

/-- Rune code of lowercase q. -/
def keyQ : Int := 113

/-- Key code of `tea.KeyTab` (the TAB control character). -/
def keyTab : Int := 9

/-- Modifier bit of `tea.ModCtrl` / `vt.ModCtrl`. -/
def modCtrl : Nat := 4

/-- External side effects a `Pane` operation can perform, in the order
performed. -/
inductive PaneEff where
  /-- `xpty.NewPty` succeeded: a pseudo-terminal handle now exists. -/
  | allocPty
  /-- `pty.Start(cmd)` succeeded: the child process is running. -/
  | startProc
  /-- `pty.Close()` was called (releases the pseudo-terminal). -/
  | closePty
  /-- `cmd.Process.Signal(syscall.SIGTERM)` was called. -/
  | signalTerm
  /-- `emu.Close()` was called (releases the emulator). -/
  | closeEmu
  /-- `pty.Resize(w, h)` was called. -/
  | resizePty (w h : Int)
  /-- `emu.Resize(w, h)` was called. -/
  | resizeEmu (w h : Int)
  /-- `emu.SendKey(k)` was called. -/
  | sendKey (k : KeyEvent)
deriving DecidableEq, Repr

/-- State of a pseudo-terminal handle: its current dimensions. -/
structure PtyState where
  width : Int
  height : Int
deriving DecidableEq, Repr

/-- State of a `vt.SafeEmulator`: dimensions, local cursor position,
the keys it has received via `SendKey`, and whether it was closed. -/
structure EmuState where
  width : Int
  height : Int
  cursorX : Int
  cursorY : Int
  keys : List KeyEvent
  closed : Bool
deriving DecidableEq, Repr

/-- The `Pane` struct of `pane.go`: pty + emulator pair, the
`cmd.Process != nil` observation, the atomic `done` and `closed`
flags, and the `sync.Once` guard (`onceDone` = the once has fired). -/
structure Pane where
  pty : PtyState
  emu : EmuState
  hasProcess : Bool
  done : Bool
  closed : Bool
  onceDone : Bool
deriving DecidableEq, Repr

/-- Results of the external fallible calls a pane operation may make:
`none` is Go's nil error. -/
structure PaneEnv where
  allocErr : Option GoErr
  startErr : Option GoErr
  resizeErr : Option GoErr
  closeErr : Option GoErr
deriving DecidableEq, Repr

/-- An environment in which every external call succeeds. -/
def envOk : PaneEnv := ⟨none, none, none, none⟩

/-- Source `NewPane(w, h, cmd)`: allocate a pty, start the command (releasing
the pty if the start fails), construct the emulator, return the pane.
The three byte-pump goroutines are modelled by the `done` flag being
set asynchronously later (see `StepEnv`), so construction returns
`done := false`. -/
def NewPane (env : PaneEnv) (w h : Int) : Except GoErr Pane × List PaneEff :=
  match env.allocErr with
  | some e => (.error (.wrap "creating pty" e), [])
  | none =>
    match env.startErr with
    | some e => (.error (.wrap "starting command" e), [.allocPty, .closePty])
    | none =>
      (.ok { pty := ⟨w, h⟩
             emu := { width := w, height := h, cursorX := 0, cursorY := 0,
                      keys := [], closed := false }
             hasProcess := true
             done := false
             closed := false
             onceDone := false },
       [.allocPty, .startProc])

/-- Source `Pane.Exited()`: the `done` flag. -/
def Pane.Exited (p : Pane) : Bool := p.done

/-- Source `Pane.Resize(w, h)`: no-op when closed or exited; otherwise resize
the pty and, only if that succeeded, the emulator. -/
def Pane.Resize (env : PaneEnv) (p : Pane) (w h : Int) :
    Option GoErr × Pane × List PaneEff :=
  if p.closed || p.done then (none, p, [])
  else
    match env.resizeErr with
    | some e => (some (.wrap "resizing pty" e), p, [.resizePty w h])
    | none =>
      (none,
       { p with pty := ⟨w, h⟩, emu := { p.emu with width := w, height := h } },
       [.resizePty w h, .resizeEmu w h])

/-- Source `Pane.Close()`: one-shot via `sync.Once`. The first call sets the
closed flag, signals the child with SIGTERM if it has a process that
has not exited, closes the emulator, closes the pty and returns the
pty close result; later calls do nothing and return nil. -/
def Pane.Close (env : PaneEnv) (p : Pane) :
    Option GoErr × Pane × List PaneEff :=
  if p.onceDone then (none, p, [])
  else
    (env.closeErr,
     { p with onceDone := true, closed := true,
              emu := { p.emu with closed := true } },
     (if p.hasProcess && !p.done then [.signalTerm] else []) ++
       [.closeEmu, .closePty])

/-- Number of occurrences of one effect in a log. -/
def countEff (e : PaneEff) (l : List PaneEff) : Nat := l.count e

/-- Net number of pseudo-terminals left allocated by a log: successful
allocations minus close calls. -/
def netPtys (l : List PaneEff) : Int :=
  (countEff .allocPty l : Int) - (countEff .closePty l : Int)

/-- Source `paneSize(termWidth, termHeight)`: each pane's content width is
`(W - 5) / 2` with Go's truncating integer division, the content
height is `H - 3` (top border, bottom border, status bar). -/
def paneSize (termWidth termHeight : Int) : Int × Int :=
  (Int.tdiv (termWidth - 5) 2, termHeight - 3)

/-- Commands the bubbletea model returns: nothing, quit the host, or
schedule a tick after the given number of milliseconds. -/
inductive Cmd where
  | none
  | quit
  | tick (ms : Nat)
deriving DecidableEq, Repr

/-- Source `doTick()`: schedule a tick in 33 ms. -/
def doTick : Cmd := .tick 33

/-- The bubbletea `model`: two pane slots (nil until started), the
focus index, the meta-mode flag, the last-known terminal size, the
`started` flag and the `sync.Once` cleanup guard. `cleanupRuns` counts
executions of the once-guarded cleanup body (the observation the
`sync.Once` semantics guards). -/
structure Model where
  pane0 : Option Pane
  pane1 : Option Pane
  focused : Int
  metaActive : Bool
  width : Int
  height : Int
  started : Bool
  cleanupDone : Bool
  cleanupRuns : Nat
deriving DecidableEq, Repr

/-- The zero-valued model `&model{cmd0: cmd0, cmd1: cmd1}`. -/
def initModel : Model :=
  { pane0 := none, pane1 := none, focused := 0, metaActive := false,
    width := 0, height := 0, started := false, cleanupDone := false,
    cleanupRuns := 0 }

/-- The pane slot `m.panes[i]` for the two indices the source uses. -/
def Model.pane (m : Model) (i : Int) : Option Pane :=
  if i = 1 then m.pane1 else m.pane0

/-- Liveness check `p.Exited()` lifted to a possibly-nil pane slot (a nil slot is
never consulted by the source thanks to the `started` guard). -/
def paneExited : Option Pane → Bool
  | .none => false
  | .some p => p.Exited

/-- Result of closing one possibly-nil pane slot inside `cleanup`:
`if p != nil { p.Close() }`, the error discarded. -/
def closeSlot (env : PaneEnv) : Option Pane → Option Pane × List PaneEff
  | .none => (.none, [])
  | .some p =>
    let r := Pane.Close env p
    (.some r.2.1, r.2.2)

/-- Source `cleanup()`: under the one-shot `cleanupOnce` guard, close both
panes (skipping nil slots). The errors returned by `Close` are
discarded; `cleanup` itself returns nothing to its caller beyond the
mutated model. Effects are tagged with the pane index. -/
def cleanup (env0 env1 : PaneEnv) (m : Model) :
    Model × List (Nat × PaneEff) :=
  if m.cleanupDone then (m, [])
  else
    let r0 := closeSlot env0 m.pane0
    let r1 := closeSlot env1 m.pane1
    ({ m with pane0 := r0.1, pane1 := r1.1, cleanupDone := true,
              cleanupRuns := m.cleanupRuns + 1 },
     r0.2.map ((0, ·)) ++ r1.2.map ((1, ·)))

/-- Source `handleResize(msg)`: record the size; bail out on a degenerate
layout; on the first usable size construct both panes (all-or-nothing:
a failure of the first constructs nothing, a failure of the second
closes the first, and either failure quits); afterwards resize both
panes, ignoring errors. -/
def handleResize (env0 env1 : PaneEnv) (m : Model) (w h : Int) :
    Model × Cmd × List (Nat × PaneEff) :=
  let m := { m with width := w, height := h }
  let s := paneSize m.width m.height
  if s.1 ≤ 0 ∨ s.2 ≤ 0 then (m, .none, [])
  else if !m.started then
    match NewPane env0 s.1 s.2 with
    | (.error _, l0) => (m, .quit, l0.map ((0, ·)))
    | (.ok p0, l0) =>
      match NewPane env1 s.1 s.2 with
      | (.error _, l1) =>
        let c := Pane.Close env0 p0
        (m, .quit, l0.map ((0, ·)) ++ l1.map ((1, ·)) ++ c.2.2.map ((0, ·)))
      | (.ok p1, l1) =>
        ({ m with pane0 := some p0, pane1 := some p1, started := true },
         .none, l0.map ((0, ·)) ++ l1.map ((1, ·)))
  else
    let r0 := match m.pane0 with
      | .none => (m.pane0, ([] : List PaneEff))
      | .some p => let r := Pane.Resize env0 p s.1 s.2; (some r.2.1, r.2.2)
    let r1 := match m.pane1 with
      | .none => (m.pane1, ([] : List PaneEff))
      | .some p => let r := Pane.Resize env1 p s.1 s.2; (some r.2.1, r.2.2)
    ({ m with pane0 := r0.1, pane1 := r1.1 }, .none,
     r0.2.map ((0, ·)) ++ r1.2.map ((1, ·)))

/-- Source `sendKey(key)`: forward a key event to the focused pane's emulator
if that pane has not exited. -/
def sendKey (m : Model) (k : KeyEvent) :
    Model × List (Nat × PaneEff) :=
  match m.pane m.focused with
  | .none => (m, [])
  | .some p =>
    if !p.Exited then
      let p' := { p with emu := { p.emu with keys := p.emu.keys ++ [k] } }
      (if m.focused = 1 then { m with pane1 := some p' }
       else { m with pane0 := some p' },
       [((if m.focused = 1 then 1 else 0), .sendKey k)])
    else (m, [])

/-- Source `handleKey(msg)`: ignore keys before the panes exist; in meta mode
interpret Tab (switch focus), unmodified q (quit with cleanup) and
Ctrl+A (send one literal Ctrl+A to the focused pane), always clearing
meta mode; otherwise Ctrl+A arms meta mode and any other key is
forwarded to the focused pane. -/
def handleKey (env0 env1 : PaneEnv) (m : Model) (k : KeyEvent) :
    Model × Cmd × List (Nat × PaneEff) :=
  if !m.started then (m, .none, [])
  else if m.metaActive then
    let m := { m with metaActive := false }
    if k.code = keyTab then
      ({ m with focused := 1 - m.focused }, .none, [])
    else if k.code = keyQ ∧ k.mod = 0 then
      let r := cleanup env0 env1 m
      (r.1, .quit, r.2)
    else if k.code = keyA ∧ k.mod = modCtrl then
      let r := sendKey m ⟨keyA, modCtrl⟩
      (r.1, .none, r.2)
    else (m, .none, [])
  else if k.code = keyA ∧ k.mod = modCtrl then
    ({ m with metaActive := true }, .none, [])
  else
    let r := sendKey m k
    (r.1, .none, r.2)

/-- The messages `Update` handles. -/
inductive Msg where
  | resize (w h : Int)
  | key (k : KeyEvent)
  | tick
deriving DecidableEq, Repr

/-- Source `Update(msg)`: dispatch on the message; on a tick, if both panes
have exited run cleanup and quit, otherwise schedule the next tick. -/
def Update (env0 env1 : PaneEnv) (m : Model) (msg : Msg) :
    Model × Cmd × List (Nat × PaneEff) :=
  match msg with
  | .resize w h => handleResize env0 env1 m w h
  | .key k => handleKey env0 env1 m k
  | .tick =>
    if m.started && paneExited m.pane0 && paneExited m.pane1 then
      let r := cleanup env0 env1 m
      (r.1, .quit, r.2)
    else (m, doTick, [])

/-- Per-step external world: the results of the fallible calls for
each pane, and whether each pane's background pumps have marked it
done (the asynchronous `p.done.Store(true)` of the copy/wait
goroutines) before the step runs. -/
structure StepEnv where
  env0 : PaneEnv
  env1 : PaneEnv
  done0 : Bool
  done1 : Bool
deriving DecidableEq, Repr

/-- Apply the asynchronous done-flag stores of the background pumps:
the flag is monotone (only ever set). -/
def applyAsync (e : StepEnv) (m : Model) : Model :=
  { m with
    pane0 := m.pane0.map (fun p => { p with done := p.done || e.done0 })
    pane1 := m.pane1.map (fun p => { p with done := p.done || e.done1 }) }

/-- Run a whole session: fold `Update` over a list of messages, each
with its step environment, interleaving the asynchronous done-flag
stores. -/
def runTrace (m : Model) : List (StepEnv × Msg) → Model
  | [] => m
  | (e, msg) :: rest =>
    runTrace (Update e.env0 e.env1 (applyAsync e m) msg).1 rest

/-- The parts of `tea.View` the source sets: the alt-screen flag,
whether the waiting placeholder text was set instead of the composite
layer, and the cursor placed (nil when none was set). -/
structure TeaView where
  altScreen : Bool
  waiting : Bool
  cursor : Option (Int × Int)
deriving DecidableEq, Repr

/-- Source `View()`: before the panes exist show the waiting text with no
cursor; afterwards install the composite layer and place the cursor at
the focused emulator's local position offset by (+1, +1) for the left
pane or (+pw+4, +1) for the right pane. -/
def View (m : Model) : TeaView :=
  if !m.started then
    { altScreen := true, waiting := true, cursor := none }
  else
    let pos := match m.pane m.focused with
      | .some p => (p.emu.cursorX, p.emu.cursorY)
      | .none => ((0 : Int), (0 : Int))
    let pw := (paneSize m.width m.height).1
    let cursorX := pos.1 + 1
    let cursorX := if m.focused = 1 then pos.1 + pw + 4 else cursorX
    let cursorY := pos.2 + 1
    { altScreen := true, waiting := false, cursor := some (cursorX, cursorY) }

/-- An RGBA color (`color.RGBA`). -/
structure RGBA where
  r : Nat
  g : Nat
  b : Nat
  a : Nat
deriving DecidableEq, Repr

/-- Border color of the focused pane (#a6e3a1). -/
def colorFocused : RGBA := ⟨0xa6, 0xe3, 0xa1, 0xff⟩

/-- Border color of the blurred pane and the divider (#45475a). -/
def colorBlurred : RGBA := ⟨0x45, 0x47, 0x5a, 0xff⟩

/-- Status bar color (#6c7086). -/
def colorStatus : RGBA := ⟨0x6c, 0x70, 0x86, 0xff⟩

/-- A cell style (`uv.Style`): only the foreground color is set. -/
structure Style where
  fg : RGBA
deriving DecidableEq, Repr

/-- An integer rectangle (`image.Rectangle` / `tea.Rectangle`),
half-open: Min inclusive, Max exclusive. -/
structure Rect where
  minX : Int
  minY : Int
  maxX : Int
  maxY : Int
deriving DecidableEq, Repr

/-- One one-column cell write (`s.SetCell(x, y, cell)`). -/
structure CellWrite where
  x : Int
  y : Int
  content : String
  style : Style
deriving DecidableEq, Repr

/-- A drawing operation performed by `dualPaneLayer.Draw`: either a
cell write or a delegation to pane `i`'s emulator to fill `area`. -/
inductive DrawOp where
  | cell (c : CellWrite)
  | emuDraw (i : Nat) (area : Rect)
deriving DecidableEq, Repr

/-- Source `setCell(s, x, y, content, style)`: a single cell write,
bounds-checked against the screen and silently dropped outside it. -/
def setCell (bounds : Rect) (x y : Int) (content : String) (st : Style) :
    List DrawOp :=
  if x < bounds.minX ∨ x ≥ bounds.maxX ∨ y < bounds.minY ∨ y ≥ bounds.maxY
  then []
  else [.cell ⟨x, y, content, st⟩]

/-- Go's `for i := range n` over an int: `n` iterations (none when
`n ≤ 0`), collecting the drawing operations of each. -/
def forRange (n : Int) (f : Nat → List DrawOp) : List DrawOp :=
  ((List.range n.toNat).map f).flatten

/-- Go's `for i, ch := range s` over a string: the runes of `s` paired
with their byte offsets (UTF-8). -/
def goRangeAux : Nat → List Char → List (Nat × Char)
  | _, [] => []
  | i, c :: cs => (i, c) :: goRangeAux (i + c.utf8Size) cs

/-- Byte-offset/rune pairs of a string, as Go's `range` yields them. -/
def goRange (s : String) : List (Nat × Char) := goRangeAux 0 s.data

/-- The `dualPaneLayer` passed to the renderer: focus index and the
terminal size (the pane pointers are consulted only through the
`emuDraw` delegation operations). -/
structure DualPaneLayer where
  focused : Int
  width : Int
  height : Int
deriving DecidableEq, Repr

/-- Source `dualPaneLayer.Draw(s, r)`: nothing on a degenerate layout;
otherwise the top border row, the per-row side borders and divider,
the two emulator content delegations, the bottom border row and the
status bar (truncated at the region's right edge), every cell write
bounds-checked against `s`. -/
def Draw (d : DualPaneLayer) (s r : Rect) : List DrawOp :=
  let sz := paneSize d.width d.height
  let pw := sz.1
  let ph := sz.2
  if pw ≤ 0 ∨ ph ≤ 0 then []
  else
    let leftColor := if d.focused = 0 then colorFocused else colorBlurred
    let rightColor := if d.focused = 0 then colorBlurred else colorFocused
    let lBorder : Style := ⟨leftColor⟩
    let rBorder : Style := ⟨rightColor⟩
    let divStyle : Style := ⟨colorBlurred⟩
    let statStyle : Style := ⟨colorStatus⟩
    let ox := r.minX
    let oy := r.minY
    let lBorderL : Int := 0
    let lContent : Int := 1
    let lBorderR := lContent + pw
    let divCol := lBorderR + 1
    let rBorderL := divCol + 1
    let rContent := rBorderL + 1
    let rBorderR := rContent + pw
    let top :=
      setCell s (ox + lBorderL) oy "╭" lBorder ++
      forRange pw (fun i => setCell s (ox + lContent + (i : Int)) oy "─" lBorder) ++
      setCell s (ox + lBorderR) oy "╮" lBorder ++
      setCell s (ox + divCol) oy "│" divStyle ++
      setCell s (ox + rBorderL) oy "╭" rBorder ++
      forRange pw (fun i => setCell s (ox + rContent + (i : Int)) oy "─" rBorder) ++
      setCell s (ox + rBorderR) oy "╮" rBorder
    let rows :=
      forRange ph (fun row =>
        let y := oy + 1 + (row : Int)
        setCell s (ox + lBorderL) y "│" lBorder ++
        setCell s (ox + lBorderR) y "│" lBorder ++
        setCell s (ox + divCol) y "│" divStyle ++
        setCell s (ox + rBorderL) y "│" rBorder ++
        setCell s (ox + rBorderR) y "│" rBorder)
    let leftArea : Rect := ⟨ox + lContent, oy + 1, ox + lContent + pw, oy + 1 + ph⟩
    let rightArea : Rect := ⟨ox + rContent, oy + 1, ox + rContent + pw, oy + 1 + ph⟩
    let emus := [DrawOp.emuDraw 0 leftArea, DrawOp.emuDraw 1 rightArea]
    let botY := oy + 1 + ph
    let bottom :=
      setCell s (ox + lBorderL) botY "╰" lBorder ++
      forRange pw (fun i => setCell s (ox + lContent + (i : Int)) botY "─" lBorder) ++
      setCell s (ox + lBorderR) botY "╯" lBorder ++
      setCell s (ox + divCol) botY "│" divStyle ++
      setCell s (ox + rBorderL) botY "╰" rBorder ++
      forRange pw (fun i => setCell s (ox + rContent + (i : Int)) botY "─" rBorder) ++
      setCell s (ox + rBorderR) botY "╯" rBorder
    let statusY := botY + 1
    let focusLabel := if d.focused = 1 then "RIGHT" else "LEFT"
    let statusText :=
      "  Focus: " ++ focusLabel ++ "  │  Ctrl+A Tab: switch  │  Ctrl+A q: quit"
    let stat :=
      (((goRange statusText).takeWhile
          (fun p => ox + (p.1 : Int) < r.maxX)).map
        (fun p => setCell s (ox + (p.1 : Int)) statusY
          (String.singleton p.2) statStyle)).flatten
    top ++ rows ++ emus ++ bottom ++ stat

/-! Concrete fixtures used by witnesses and counterexamples. -/

/-- A freshly constructed live pane at 37×21 with its cursor at (3, 2). -/
def livePane : Pane :=
  { pty := ⟨37, 21⟩
    emu := { width := 37, height := 21, cursorX := 3, cursorY := 2,
             keys := [], closed := false }
    hasProcess := true
    done := false
    closed := false
    onceDone := false }

/-- The live pane after its child process exited. -/
def exitedPane : Pane := { livePane with done := true }

/-- A started model at 80×24 holding two live panes, left pane focused. -/
def runningModel : Model :=
  { pane0 := some livePane, pane1 := some livePane, focused := 0,
    metaActive := false, width := 80, height := 24, started := true,
    cleanupDone := false, cleanupRuns := 0 }

/-- The running model after both child processes have exited. -/
def dualExitModel : Model :=
  { runningModel with pane0 := some exitedPane, pane1 := some exitedPane }

/-- An environment whose pty close fails. -/
def envCloseFail : PaneEnv :=
  { envOk with closeErr := some (.base "pty close failed") }

/-! Theorems for the claims. -/

/-- C8: for every Pane whose closed flag or exited flag is set,
`Resize(w, h)` returns ok for every `w` and `h`, performs no external
calls, and mutates neither the pseudo-terminal nor the emulator: the
returned pane (dimensions included) is the input pane. -/
theorem C8_resize_noop_when_closed_or_exited (env : PaneEnv) (p : Pane)
    (w h : Int) (hp : p.closed = true ∨ p.done = true) :
    Pane.Resize env p w h = (none, p, []) := by
  unfold Pane.Resize
  rcases hp with h1 | h1 <;> simp [h1]

/-- Witness for C8 at a concrete exited pane. -/
theorem C8_resize_noop_when_closed_or_exited_witness :
    Pane.Resize envOk exitedPane 80 24 = (none, exitedPane, []) :=
  C8_resize_noop_when_closed_or_exited envOk exitedPane 80 24 (Or.inr rfl)

/-- C9: for every live pane (neither closed nor exited), if the
pseudo-terminal resize fails then `Resize` returns the wrapped error,
the emulator is not resized (the pane, including its emulator's
dimensions, is returned unchanged), and the only external call made is
the failed pty resize. -/
theorem C9_resize_error_skips_emulator (env : PaneEnv) (p : Pane)
    (w h : Int) (e : GoErr) (hc : p.closed = false) (hd : p.done = false)
    (he : env.resizeErr = some e) :
    Pane.Resize env p w h =
      (some (.wrap "resizing pty" e), p, [.resizePty w h]) := by
  unfold Pane.Resize
  simp [hc, hd, he]

/-- Witness for C9 at a concrete live pane and failing environment. -/
theorem C9_resize_error_skips_emulator_witness :
    Pane.Resize { envOk with resizeErr := some (.base "ioctl") }
        livePane 80 24 =
      (some (.wrap "resizing pty" (.base "ioctl")), livePane,
       [.resizePty 80 24]) :=
  C9_resize_error_skips_emulator
    { envOk with resizeErr := some (.base "ioctl") }
    livePane 80 24 (.base "ioctl") rfl rfl rfl

/-- C2: Close is idempotent. On a pane whose once-guard has not fired,
the first call returns the pty close result, signals SIGTERM exactly
once if the process exists and has not exited (never otherwise), and
releases the emulator and the pty exactly once each; a subsequent
call (modelling the second of two sequential or serialized concurrent
calls, whatever its environment) performs no external calls, leaves
the pane exactly as the first call left it, and returns ok. -/
theorem C2_close_idempotent (env env2 : PaneEnv) (p : Pane)
    (h : p.onceDone = false) :
    (Pane.Close env p).1 = env.closeErr ∧
    countEff .closePty (Pane.Close env p).2.2 = 1 ∧
    countEff .closeEmu (Pane.Close env p).2.2 = 1 ∧
    countEff .signalTerm (Pane.Close env p).2.2 =
      (if p.hasProcess && !p.done then 1 else 0) ∧
    Pane.Close env2 (Pane.Close env p).2.1 =
      (none, (Pane.Close env p).2.1, []) := by
  unfold Pane.Close
  simp only [h, Bool.false_eq_true, if_false]
  by_cases hs : p.hasProcess && !p.done <;>
    simp [hs, countEff]

/-- Witness for C2 at a concrete live pane. -/
theorem C2_close_idempotent_witness :
    (Pane.Close envCloseFail livePane).1 = envCloseFail.closeErr ∧
    countEff .closePty (Pane.Close envCloseFail livePane).2.2 = 1 ∧
    countEff .closeEmu (Pane.Close envCloseFail livePane).2.2 = 1 ∧
    countEff .signalTerm (Pane.Close envCloseFail livePane).2.2 =
      (if livePane.hasProcess && !livePane.done then 1 else 0) ∧
    Pane.Close envOk (Pane.Close envCloseFail livePane).2.1 =
      (none, (Pane.Close envCloseFail livePane).2.1, []) :=
  C2_close_idempotent envCloseFail envOk livePane rfl

/-- C3 counterexample: `cleanup` discards the errors returned by
`Pane.Close` (`p.Close()` with the result dropped) and itself returns
nothing but the mutated model, so its result is identical whether the
first pane's pseudo-terminal release fails or succeeds — at this
concrete started model no error is surfaced to the caller as the
cleanup's result, contradicting the claim that teardown errors are
surfaced with the first error reported. -/
theorem C3_counterexample :
    cleanup envCloseFail envOk runningModel =
      cleanup envOk envOk runningModel := by
  decide

/-- C3 amended: cleanup attempts Close on both panes independently —
whatever errors the two pseudo-terminal releases return, both panes'
emulator and pty are released exactly once — but the teardown errors
are discarded by cleanup rather than surfaced: its entire result is
independent of the close errors (last conjunct, for all environments),
so the caller can never observe them. -/
theorem C3_cleanup_both_panes_amended (env0 env1 env0' env1' : PaneEnv)
    (m : Model) (p0 p1 : Pane) (hc : m.cleanupDone = false)
    (h0 : m.pane0 = some p0) (h1 : m.pane1 = some p1)
    (o0 : p0.onceDone = false) (o1 : p1.onceDone = false) :
    (cleanup env0 env1 m).2.count (0, .closePty) = 1 ∧
    (cleanup env0 env1 m).2.count (1, .closePty) = 1 ∧
    (cleanup env0 env1 m).2.count (0, .closeEmu) = 1 ∧
    (cleanup env0 env1 m).2.count (1, .closeEmu) = 1 ∧
    cleanup env0 env1 m = cleanup env0' env1' m := by
  unfold cleanup closeSlot Pane.Close
  simp only [hc, h0, h1, o0, o1, Bool.false_eq_true, if_false]
  by_cases s0 : p0.hasProcess && !p0.done <;>
    by_cases s1 : p1.hasProcess && !p1.done <;>
      simp [s0, s1, List.count_cons, List.count_nil]

/-- Witness for the amended C3 at a concrete model with a failing
pseudo-terminal release on the first pane. -/
theorem C3_cleanup_both_panes_amended_witness :
    (cleanup envCloseFail envOk runningModel).2.count (0, .closePty) = 1 ∧
    (cleanup envCloseFail envOk runningModel).2.count (1, .closePty) = 1 ∧
    (cleanup envCloseFail envOk runningModel).2.count (0, .closeEmu) = 1 ∧
    (cleanup envCloseFail envOk runningModel).2.count (1, .closeEmu) = 1 ∧
    cleanup envCloseFail envOk runningModel = cleanup envOk envOk runningModel :=
  C3_cleanup_both_panes_amended envCloseFail envOk envOk envOk runningModel
    livePane livePane rfl rfl rfl rfl rfl

/-- C1: with the panes started and a valid layout, the composite
cursor placed by `View` is the focused emulator's local cursor offset
by (+1, +1) when the left pane is focused and by (+pw+4, +1) when the
right pane is focused. -/
theorem C1_cursor_offsets (m : Model) (p : Pane)
    (hs : m.started = true)
    (hpw : 0 < (paneSize m.width m.height).1)
    (hph : 0 < (paneSize m.width m.height).2)
    (hp : m.pane m.focused = some p) :
    (m.focused = 0 → (View m).cursor =
      some (p.emu.cursorX + 1, p.emu.cursorY + 1)) ∧
    (m.focused = 1 → (View m).cursor =
      some (p.emu.cursorX + (paneSize m.width m.height).1 + 4,
            p.emu.cursorY + 1)) := by
  unfold View
  constructor <;> intro hf <;> rw [hf] at hp <;> simp [hs, hp, hf]

/-- Witness for C1: at 80×24 (pw = 37) with local cursor (3, 2), the
composite cursor is (4, 3) for a focused left pane and (44, 3) for a
focused right pane. -/
theorem C1_cursor_offsets_witness :
    (View runningModel).cursor = some (4, 3) ∧
    (View { runningModel with focused := 1 }).cursor = some (44, 3) :=
  ⟨(C1_cursor_offsets runningModel livePane rfl (by decide) (by decide)
      rfl).1 rfl,
   (C1_cursor_offsets { runningModel with focused := 1 } livePane rfl
      (by decide) (by decide) rfl).2 rfl⟩

/-- Helper: cleanup never touches the meta-mode flag. -/
theorem cleanup_metaActive (env0 env1 : PaneEnv) (m : Model) :
    (cleanup env0 env1 m).1.metaActive = m.metaActive := by
  unfold cleanup
  split <;> rfl

/-- Helper: sendKey never touches the meta-mode flag. -/
theorem sendKey_metaActive (m : Model) (k : KeyEvent) :
    (sendKey m k).1.metaActive = m.metaActive := by
  unfold sendKey
  cases hp : m.pane m.focused with
  | none => rfl
  | some p =>
    by_cases he : p.Exited = true <;>
      by_cases hf : m.focused = 1 <;> simp [he, hf]

/-- C10: while meta-mode is on (and the panes are started), every
keypress leaves meta-mode off afterwards; a q carrying any nonzero
modifier is consumed with no effect at all (no cleanup, no command, no
external calls — the model only clears the meta flag); and Tab toggles
the focus index whatever its modifier bits are. -/
theorem C10_meta_mode_commands (env0 env1 : PaneEnv) (m : Model)
    (k : KeyEvent) (hs : m.started = true) (hm : m.metaActive = true) :
    (handleKey env0 env1 m k).1.metaActive = false ∧
    (k.code = keyQ → k.mod ≠ 0 →
      handleKey env0 env1 m k = ({ m with metaActive := false }, .none, [])) ∧
    (k.code = keyTab →
      handleKey env0 env1 m k =
        ({ m with metaActive := false, focused := 1 - m.focused },
         .none, [])) := by
  refine ⟨?_, ?_, ?_⟩
  · unfold handleKey
    simp only [hs, hm, Bool.not_true, Bool.false_eq_true, if_false, if_true]
    by_cases ht : k.code = keyTab
    · simp [ht]
    · by_cases hq : k.code = keyQ ∧ k.mod = 0
      · simp [ht, hq, cleanup_metaActive, keyQ, keyTab]
      · by_cases ha : k.code = keyA ∧ k.mod = modCtrl
        · simp [ht, hq, ha, sendKey_metaActive, keyA, keyQ, keyTab, modCtrl]
        · simp [ht, hq, ha]
  · intro hq hmod
    unfold handleKey
    have ht : ¬k.code = keyTab := by rw [hq]; decide
    have ha : ¬(k.code = keyA ∧ k.mod = modCtrl) := by
      rw [hq]; exact fun hh => absurd hh.1 (by decide)
    simp [hs, hm, ht, ha, hmod]
  · intro ht
    unfold handleKey
    simp [hs, hm, ht]

/-- Witness for C10: a Ctrl+q keypress in meta mode at a concrete
running model is consumed with no effect, and the guarantees for Tab
and the meta flag hold there. -/
theorem C10_meta_mode_commands_witness :
    (handleKey envOk envOk { runningModel with metaActive := true }
        ⟨keyQ, modCtrl⟩).1.metaActive = false ∧
    ((⟨keyQ, modCtrl⟩ : KeyEvent).code = keyQ →
      (⟨keyQ, modCtrl⟩ : KeyEvent).mod ≠ 0 →
      handleKey envOk envOk { runningModel with metaActive := true }
          ⟨keyQ, modCtrl⟩ =
        ({ runningModel with metaActive := false }, .none, [])) ∧
    ((⟨keyQ, modCtrl⟩ : KeyEvent).code = keyTab →
      handleKey envOk envOk { runningModel with metaActive := true }
          ⟨keyQ, modCtrl⟩ =
        ({ runningModel with metaActive := false,
                             focused := 1 - runningModel.focused },
         .none, [])) :=
  C10_meta_mode_commands envOk envOk
    { runningModel with metaActive := true } ⟨keyQ, modCtrl⟩ rfl rfl

/-- C6: from meta-mode off with the panes started and the focused pane
not exited, the first Ctrl+A only arms meta-mode (nothing is forwarded
to any pane: no external calls, only the meta flag changes), and the
second Ctrl+A delivers exactly one literal Ctrl+A key event to the
focused pane's emulator, leaves the other pane untouched, and leaves
meta-mode off. -/
theorem C6_chord_roundtrip (env0 env1 : PaneEnv) (m : Model)
    (p : Pane) (hs : m.started = true) (hm : m.metaActive = false)
    (hp : m.pane m.focused = some p) (hpd : p.done = false) :
    handleKey env0 env1 m ⟨keyA, modCtrl⟩ =
      ({ m with metaActive := true }, .none, []) ∧
    (m.focused = 0 →
      handleKey env0 env1 { m with metaActive := true } ⟨keyA, modCtrl⟩ =
        ({ m with metaActive := false,
                  pane0 := some { p with emu := { p.emu with
                    keys := p.emu.keys ++ [⟨keyA, modCtrl⟩] } } },
         .none, [(0, .sendKey ⟨keyA, modCtrl⟩)])) ∧
    (m.focused = 1 →
      handleKey env0 env1 { m with metaActive := true } ⟨keyA, modCtrl⟩ =
        ({ m with metaActive := false,
                  pane1 := some { p with emu := { p.emu with
                    keys := p.emu.keys ++ [⟨keyA, modCtrl⟩] } } },
         .none, [(1, .sendKey ⟨keyA, modCtrl⟩)])) := by
  refine ⟨?_, ?_, ?_⟩
  · unfold handleKey
    simp [hs, hm, keyA, keyQ, keyTab, modCtrl]
  · intro hf
    rw [hf] at hp
    have hp0 : m.pane0 = some p := by simpa [Model.pane] using hp
    unfold handleKey sendKey
    simp [hs, hf, hp0, Model.pane, Pane.Exited, hpd, keyA, keyQ, keyTab,
      modCtrl]
  · intro hf
    rw [hf] at hp
    have hp1 : m.pane1 = some p := by simpa [Model.pane] using hp
    unfold handleKey sendKey
    simp [hs, hf, hp1, Model.pane, Pane.Exited, hpd, keyA, keyQ, keyTab,
      modCtrl]

/-- Witness for C6 at a concrete running model (left pane focused):
the two-chord sequence delivers exactly one literal Ctrl+A to the left
pane's emulator. -/
theorem C6_chord_roundtrip_witness :
    handleKey envOk envOk runningModel ⟨keyA, modCtrl⟩ =
      ({ runningModel with metaActive := true }, .none, []) ∧
    handleKey envOk envOk { runningModel with metaActive := true }
        ⟨keyA, modCtrl⟩ =
      ({ runningModel with metaActive := false,
                           pane0 := some { livePane with
                             emu := { livePane.emu with
                               keys := livePane.emu.keys ++
                                 [⟨keyA, modCtrl⟩] } } },
       .none, [(0, .sendKey ⟨keyA, modCtrl⟩)]) := by
  have h := C6_chord_roundtrip envOk envOk runningModel livePane
    rfl rfl rfl rfl
  exact ⟨h.1, h.2.1 rfl⟩

/-- C5: the layout computes pw = (W-5)/2 with Go's truncating integer
division and ph = H-3; for W ≥ 5 and H ≥ 3 both are nonnegative; 80×24
yields 37×21; and on a degenerate layout (pw ≤ 0 or ph ≤ 0) the
compositor draws nothing and a resize event attempts no pane creation
(the model only records the new size, with no command and no external
calls). -/
theorem C5_layout_sizes (W H w h : Int) (d : DualPaneLayer) (s r : Rect)
    (env0 env1 : PaneEnv) (m : Model) (hW : 5 ≤ W) (hH : 3 ≤ H) :
    paneSize W H = (Int.tdiv (W - 5) 2, H - 3) ∧
    0 ≤ (paneSize W H).1 ∧ 0 ≤ (paneSize W H).2 ∧
    paneSize 80 24 = (37, 21) ∧
    ((paneSize d.width d.height).1 ≤ 0 ∨ (paneSize d.width d.height).2 ≤ 0 →
      Draw d s r = []) ∧
    ((paneSize w h).1 ≤ 0 ∨ (paneSize w h).2 ≤ 0 →
      handleResize env0 env1 m w h =
        ({ m with width := w, height := h }, .none, [])) := by
  refine ⟨rfl, ?_, ?_, by decide, ?_, ?_⟩
  · exact Int.tdiv_nonneg (by omega) (by decide)
  · simp [paneSize]; omega
  · intro hc
    unfold Draw
    simp [hc]
  · intro hc
    unfold handleResize
    simp [hc]

/-- Witness for C5 at W = 80, H = 24 and a degenerate 4×24 layout. -/
theorem C5_layout_sizes_witness :
    paneSize 80 24 = (Int.tdiv (80 - 5) 2, 24 - 3) ∧
    0 ≤ (paneSize 80 24).1 ∧ 0 ≤ (paneSize 80 24).2 ∧
    paneSize 80 24 = (37, 21) ∧
    ((paneSize (4 : Int) 24).1 ≤ 0 ∨ (paneSize (4 : Int) 24).2 ≤ 0 →
      Draw ⟨0, 4, 24⟩ ⟨0, 0, 4, 24⟩ ⟨0, 0, 4, 24⟩ = []) ∧
    ((paneSize (4 : Int) 24).1 ≤ 0 ∨ (paneSize (4 : Int) 24).2 ≤ 0 →
      handleResize envOk envOk initModel 4 24 =
        ({ initModel with width := 4, height := 24 }, .none, [])) :=
  C5_layout_sizes 80 24 4 24 ⟨0, 4, 24⟩ ⟨0, 0, 4, 24⟩ ⟨0, 0, 4, 24⟩
    envOk envOk initModel (by decide) (by decide)

/-- Helper: a successful `NewPane` returns the freshly constructed
pane and performed exactly the pty allocation and the process start. -/
theorem NewPane_ok_shape (env : PaneEnv) (w h : Int) (p : Pane)
    (l : List PaneEff) (hN : NewPane env w h = (.ok p, l)) :
    p = { pty := ⟨w, h⟩
          emu := { width := w, height := h, cursorX := 0, cursorY := 0,
                   keys := [], closed := false }
          hasProcess := true, done := false, closed := false,
          onceDone := false } ∧
    l = [.allocPty, .startProc] := by
  unfold NewPane at hN
  rcases h1 : env.allocErr with _ | e1 <;> rw [h1] at hN
  · rcases h2 : env.startErr with _ | e2 <;> rw [h2] at hN
    · have := Prod.mk.injEq .. ▸ hN
      simp only [Prod.mk.injEq, Except.ok.injEq] at hN
      exact ⟨hN.1.symm, hN.2.symm⟩
    · simp at hN
  · simp at hN

/-- Helper: a failed `NewPane` leaves no pseudo-terminal allocated
(its effect log has equal allocation and release counts). -/
theorem NewPane_error_net (env : PaneEnv) (w h : Int) (er : GoErr)
    (l : List PaneEff) (hN : NewPane env w h = (.error er, l)) :
    netPtys l = 0 := by
  unfold NewPane at hN
  rcases h1 : env.allocErr with _ | e1 <;> rw [h1] at hN
  · rcases h2 : env.startErr with _ | e2 <;> rw [h2] at hN
    · simp at hN
    · simp only [Prod.mk.injEq] at hN
      rw [← hN.2]
      decide
  · simp only [Prod.mk.injEq] at hN
    rw [← hN.2]
    decide

/-- C7: pane construction at startup is all-or-nothing. Inside
`NewPane`, a pty allocation failure allocates nothing and a process
start failure releases the just-allocated pty before the error is
returned; in the controller, any failed `NewPane` leaves no pty
allocated, a failure of the first pane stores nothing and quits, and a
failure of the second pane closes the first pane (its pty released
exactly once) before quitting — in every case the model remains
unstarted with both slots unchanged and zero net ptys per pane. -/
theorem C7_all_or_nothing_startup (env0 env1 : PaneEnv) (m : Model)
    (w h : Int) (e : GoErr) (hs : m.started = false)
    (hpw : 0 < (paneSize w h).1) (hph : 0 < (paneSize w h).2) :
    (env0.allocErr = some e →
      NewPane env0 (paneSize w h).1 (paneSize w h).2 =
        (.error (.wrap "creating pty" e), [])) ∧
    (env0.allocErr = none → env0.startErr = some e →
      NewPane env0 (paneSize w h).1 (paneSize w h).2 =
        (.error (.wrap "starting command" e), [.allocPty, .closePty])) ∧
    (∀ er l0, NewPane env0 (paneSize w h).1 (paneSize w h).2 =
        (.error er, l0) →
      handleResize env0 env1 m w h =
        ({ m with width := w, height := h }, .quit, l0.map ((0, ·))) ∧
      netPtys l0 = 0) ∧
    (∀ p0 l0 er l1,
      NewPane env0 (paneSize w h).1 (paneSize w h).2 = (.ok p0, l0) →
      NewPane env1 (paneSize w h).1 (paneSize w h).2 = (.error er, l1) →
      handleResize env0 env1 m w h =
        ({ m with width := w, height := h }, .quit,
         l0.map ((0, ·)) ++ l1.map ((1, ·)) ++
           (Pane.Close env0 p0).2.2.map ((0, ·))) ∧
      countEff .closePty (Pane.Close env0 p0).2.2 = 1 ∧
      netPtys (l0 ++ (Pane.Close env0 p0).2.2) = 0 ∧
      netPtys l1 = 0) := by
  have hcond : ¬((paneSize w h).1 ≤ 0 ∨ (paneSize w h).2 ≤ 0) := by omega
  refine ⟨?_, ?_, ?_, ?_⟩
  · intro ha
    unfold NewPane
    rw [ha]
  · intro ha hst
    unfold NewPane
    rw [ha, hst]
  · intro er l0 hN
    refine ⟨?_, NewPane_error_net env0 _ _ er l0 hN⟩
    unfold handleResize
    simp [hcond, hs, hN]
  · intro p0 l0 er l1 h0 h1
    obtain ⟨hp0, hl0⟩ := NewPane_ok_shape env0 _ _ p0 l0 h0
    refine ⟨?_, ?_, ?_, NewPane_error_net env1 _ _ er l1 h1⟩
    · unfold handleResize
      simp [hcond, hs, h0, h1]
    · rw [hp0]
      rfl
    · rw [hp0, hl0]
      rfl

/-- Witness for C7: the second pane's process start fails at 80×24;
the first pane is closed and nothing is left allocated. -/
theorem C7_all_or_nothing_startup_witness :
    ((envOk.allocErr = some (.base "boom") →
      NewPane envOk (paneSize 80 24).1 (paneSize 80 24).2 =
        (.error (.wrap "creating pty" (.base "boom")), [])) ∧
    (envOk.allocErr = none → envOk.startErr = some (.base "boom") →
      NewPane envOk (paneSize 80 24).1 (paneSize 80 24).2 =
        (.error (.wrap "starting command" (.base "boom")),
         [.allocPty, .closePty])) ∧
    (∀ er l0, NewPane envOk (paneSize 80 24).1 (paneSize 80 24).2 =
        (.error er, l0) →
      handleResize envOk { envOk with startErr := some (.base "boom") }
          initModel 80 24 =
        ({ initModel with width := 80, height := 24 }, .quit,
         l0.map ((0, ·))) ∧
      netPtys l0 = 0) ∧
    (∀ p0 l0 er l1,
      NewPane envOk (paneSize 80 24).1 (paneSize 80 24).2 = (.ok p0, l0) →
      NewPane { envOk with startErr := some (.base "boom") }
          (paneSize 80 24).1 (paneSize 80 24).2 = (.error er, l1) →
      handleResize envOk { envOk with startErr := some (.base "boom") }
          initModel 80 24 =
        ({ initModel with width := 80, height := 24 }, .quit,
         l0.map ((0, ·)) ++ l1.map ((1, ·)) ++
           (Pane.Close envOk p0).2.2.map ((0, ·))) ∧
      countEff .closePty (Pane.Close envOk p0).2.2 = 1 ∧
      netPtys (l0 ++ (Pane.Close envOk p0).2.2) = 0 ∧
      netPtys l1 = 0)) :=
  C7_all_or_nothing_startup envOk
    { envOk with startErr := some (.base "boom") } initModel 80 24
    (.base "boom") rfl (by decide) (by decide)

/-- Invariant tying the `sync.Once` cleanup guard to the number of
executions of its body: the body has not run while the flag is unset,
and it never runs more than once. -/
def CleanupInv (m : Model) : Prop :=
  (m.cleanupDone = false → m.cleanupRuns = 0) ∧ m.cleanupRuns ≤ 1

/-- Helper: the invariant only depends on the two cleanup fields. -/
theorem CleanupInv_of_fields {m m' : Model}
    (hd : m'.cleanupDone = m.cleanupDone)
    (hr : m'.cleanupRuns = m.cleanupRuns) (hI : CleanupInv m) :
    CleanupInv m' := by
  unfold CleanupInv at *
  rw [hd, hr]
  exact hI

/-- Helper: cleanup preserves the once-guard invariant. -/
theorem cleanup_inv (env0 env1 : PaneEnv) (m : Model)
    (hI : CleanupInv m) : CleanupInv (cleanup env0 env1 m).1 := by
  unfold cleanup
  by_cases hd : m.cleanupDone = true
  · simpa [hd] using hI
  · have h0 : m.cleanupRuns = 0 := hI.1 (by revert hd; cases m.cleanupDone <;> simp)
    simp only [hd, if_false, CleanupInv]
    refine ⟨fun hc => by simp at hc, by simp [h0]⟩

/-- Helper: a resize event never touches the cleanup guard fields. -/
theorem handleResize_cleanup_fields (env0 env1 : PaneEnv) (m : Model)
    (w h : Int) :
    (handleResize env0 env1 m w h).1.cleanupDone = m.cleanupDone ∧
    (handleResize env0 env1 m w h).1.cleanupRuns = m.cleanupRuns := by
  refine ⟨?_, ?_⟩ <;>
  · simp only [handleResize]
    split
    · rfl
    split
    · split
      · rfl
      split
      · rfl
      · rfl
    · rfl

/-- Helper: forwarding a key never touches the cleanup guard fields. -/
theorem sendKey_cleanup_fields (m : Model) (k : KeyEvent) :
    (sendKey m k).1.cleanupDone = m.cleanupDone ∧
    (sendKey m k).1.cleanupRuns = m.cleanupRuns := by
  refine ⟨?_, ?_⟩ <;>
  · unfold sendKey
    split
    · rfl
    split
    · split
      · rfl
      · rfl
    · rfl

/-- Helper: key handling preserves the once-guard invariant. -/
theorem handleKey_inv (env0 env1 : PaneEnv) (m : Model) (k : KeyEvent)
    (hI : CleanupInv m) : CleanupInv (handleKey env0 env1 m k).1 := by
  unfold handleKey
  split
  · exact hI
  split
  · split
    · exact hI
    split
    · exact cleanup_inv env0 env1 _ hI
    split
    · exact CleanupInv_of_fields (sendKey_cleanup_fields _ _).1
        (sendKey_cleanup_fields _ _).2 hI
    · exact hI
  split
  · exact hI
  · exact CleanupInv_of_fields (sendKey_cleanup_fields _ _).1
      (sendKey_cleanup_fields _ _).2 hI

/-- Helper: every Update step preserves the once-guard invariant. -/
theorem Update_inv (env0 env1 : PaneEnv) (m : Model) (msg : Msg)
    (hI : CleanupInv m) : CleanupInv (Update env0 env1 m msg).1 := by
  cases msg with
  | resize w h =>
    exact CleanupInv_of_fields (handleResize_cleanup_fields env0 env1 m w h).1
      (handleResize_cleanup_fields env0 env1 m w h).2 hI
  | key k => exact handleKey_inv env0 env1 m k hI
  | tick =>
    simp only [Update]
    split
    · exact cleanup_inv env0 env1 m hI
    · exact hI

/-- Helper: the invariant holds along any whole-session trace. -/
theorem runTrace_inv (tr : List (StepEnv × Msg)) (m : Model)
    (hI : CleanupInv m) : CleanupInv (runTrace m tr) := by
  induction tr generalizing m with
  | nil => exact hI
  | cons em rest ih =>
    obtain ⟨e, msg⟩ := em
    exact ih _ (Update_inv e.env0 e.env1 (applyAsync e m) msg
      (CleanupInv_of_fields rfl rfl hI))

/-- C4: in the Running state, a tick on which both panes have exited
runs cleanup and quits; a tick on which they have not leaves the model
unchanged, performs no external calls, and schedules the next tick at
a 33 ms interval; and along any whole-session trace of events starting
from a model on which cleanup has not yet run, the once-guarded
cleanup body executes at most once, whichever exit paths fire. -/
theorem C4_tick_dual_exit_cleanup_once (env0 env1 : PaneEnv) (m : Model)
    (tr : List (StepEnv × Msg)) (hs : m.started = true)
    (hd : m.cleanupDone = false) (hr : m.cleanupRuns = 0) :
    ((paneExited m.pane0 && paneExited m.pane1) = true →
      Update env0 env1 m .tick =
        ((cleanup env0 env1 m).1, .quit, (cleanup env0 env1 m).2)) ∧
    ((paneExited m.pane0 && paneExited m.pane1) = false →
      Update env0 env1 m .tick = (m, .tick 33, [])) ∧
    doTick = .tick 33 ∧
    (runTrace m tr).cleanupRuns ≤ 1 := by
  refine ⟨?_, ?_, rfl, ?_⟩
  · intro hx
    simp only [Update, hs, Bool.true_and, hx, if_true]
  · intro hx
    simp only [Update, doTick, hs, Bool.true_and, hx, Bool.false_eq_true,
      if_false]
  · exact (runTrace_inv tr m ⟨fun _ => hr, by simp [hr]⟩).2

/-- Witness for C4 at a concrete running model whose panes have both
exited, over a concrete two-tick trace. -/
theorem C4_tick_dual_exit_cleanup_once_witness :
    ((paneExited dualExitModel.pane0 && paneExited dualExitModel.pane1) = true →
      Update envOk envOk dualExitModel .tick =
        ((cleanup envOk envOk dualExitModel).1, .quit,
         (cleanup envOk envOk dualExitModel).2)) ∧
    ((paneExited dualExitModel.pane0 && paneExited dualExitModel.pane1) = false →
      Update envOk envOk dualExitModel .tick = (dualExitModel, .tick 33, [])) ∧
    doTick = .tick 33 ∧
    (runTrace dualExitModel
      [(⟨envOk, envOk, true, true⟩, .tick),
       (⟨envOk, envOk, true, true⟩, .tick)]).cleanupRuns ≤ 1 :=
  C4_tick_dual_exit_cleanup_once envOk envOk dualExitModel
    [(⟨envOk, envOk, true, true⟩, .tick), (⟨envOk, envOk, true, true⟩, .tick)]
    rfl rfl rfl

end Planq
